import Mathlib

/-!
Verification development for the MaxScale filter-pipeline and LRU-cache sources:
`server/modules/filter/cache/lrustoragemt.cc`, `include/maxscale/filter.hh` and
`server/modules/filter/maxrows/maxrows.h`.

The single-threaded LRU core (`LRUStorage`, file `lrustorage.cc`) is not among the
sources; only its multi-threaded wrapper is.  Its operations are therefore modelled
from the specification (section 4.2); every such definition carries a doc comment
starting with `Modelled from the spec:`.  Everything else is embedded directly from
the C++ sources.  Machine pointers that may be null are modelled as `Option`;
a C++ exception escaping into `MXS_EXCEPTION_GUARD` is modelled as `Except.error`.
-/

/-- A packet buffer (`GWBUF`): one protocol message, modelled as its byte list. -/
structure GWBUF where
  data : List Nat
  deriving DecidableEq

/-- Byte size of one stored value: what counts against `max_total_size`. -/
def GWBUF.size (b : GWBUF) : Nat := b.data.length

/-- Result codes of the storage interface (spec section 4.1 / `cache_result_t`). -/
inductive cache_result_t where
  | ok
  | notFound
  | stale
  | error
  | outOfResources
  deriving DecidableEq

/-- Total byte size of a list of cache entries (key, value). -/
def entriesSize (l : List (Nat × GWBUF)) : Nat := (l.map (fun e => e.2.size)).sum

/-- Modelled from the spec: the key-to-entry lookup of the LRU decorator
(`lrustorage.cc` is not among the sources).  Returns the value stored under the
first entry carrying the given key, if any. -/
def findEntry (key : Nat) : List (Nat × GWBUF) → Option GWBUF
  | [] => none
  | e :: rest => if e.1 = key then some e.2 else findEntry key rest

/-- Modelled from the spec: removal of a key's node from the recency list
(`lrustorage.cc` is not among the sources). -/
def removeEntry (key : Nat) : List (Nat × GWBUF) → List (Nat × GWBUF)
  | [] => []
  | e :: rest => if e.1 = key then rest else e :: removeEntry key rest

/-- Modelled from the spec: the state of the LRU Storage Decorator, section 4.2
(`lrustorage.cc` is not among the sources).  `entries` is the recency list,
least-recently-used first, most-recently-used last; the underlying key/value
Storage is folded into the same list since the decorator keeps them in sync.
`item_count` and `total_size` are the incrementally maintained running totals. -/
structure LRUStorage where
  max_count : Nat
  max_size : Nat
  entries : List (Nat × GWBUF)
  item_count : Nat
  total_size : Nat
  deriving DecidableEq

/-- Modelled from the spec: a freshly constructed LRU storage with the given
limits — empty recency list, running totals zero (`lrustorage.cc` is not among
the sources). -/
def LRUStorage.init (max_count max_size : Nat) : LRUStorage :=
  ⟨max_count, max_size, [], 0, 0⟩

/-- Modelled from the spec: the eviction loop of `do_put_value`, section 4.2 —
while `max_item_count` is nonzero and `item_count > max_item_count`, or
`max_total_size` is nonzero and `total_size > max_total_size`, evict the
least-recently-used node, decrementing the running totals
(`lrustorage.cc` is not among the sources). -/
def evictLoop (maxC maxS : Nat) :
    List (Nat × GWBUF) → Nat → Nat → List (Nat × GWBUF) × Nat × Nat
  | [], cnt, sz => ([], cnt, sz)
  | e :: rest, cnt, sz =>
    if (maxC ≠ 0 ∧ maxC < cnt) ∨ (maxS ≠ 0 ∧ maxS < sz) then
      evictLoop maxC maxS rest (cnt - 1) (sz - e.2.size)
    else
      (e :: rest, cnt, sz)

/-- Modelled from the spec: `do_put_value`, section 4.2 (`lrustorage.cc` is not
among the sources).  An existing key is updated in place — size delta applied to
`total_size`, node moved to the most-recently-used end; a new key is inserted at
the most-recently-used end with both totals incremented.  Then the eviction loop
runs.  The put itself is accepted (`ok`). -/
def LRUStorage.do_put_value (st : LRUStorage) (key : Nat) (value : GWBUF) :
    LRUStorage × cache_result_t :=
  match findEntry key st.entries with
  | some old =>
    let r := evictLoop st.max_count st.max_size
      (removeEntry key st.entries ++ [(key, value)])
      st.item_count (st.total_size - old.size + value.size)
    ({ st with entries := r.1, item_count := r.2.1, total_size := r.2.2 },
      cache_result_t.ok)
  | none =>
    let r := evictLoop st.max_count st.max_size
      (st.entries ++ [(key, value)])
      (st.item_count + 1) (st.total_size + value.size)
    ({ st with entries := r.1, item_count := r.2.1, total_size := r.2.2 },
      cache_result_t.ok)

/-- Modelled from the spec: `do_get_value`, section 4.2 (`lrustorage.cc` is not
among the sources).  On a hit the node moves to the most-recently-used end and
the value is returned; on a miss nothing changes.  `flags` may request
backend-specific staleness semantics, which the decorator itself does not have. -/
def LRUStorage.do_get_value (st : LRUStorage) (key : Nat) (flags : Nat) :
    LRUStorage × cache_result_t × Option GWBUF :=
  match flags, findEntry key st.entries with
  | _, some v =>
    ({ st with entries := removeEntry key st.entries ++ [(key, v)] },
      cache_result_t.ok, some v)
  | _, none => (st, cache_result_t.notFound, none)

/-- Modelled from the spec: `do_del_value`, section 4.2 (`lrustorage.cc` is not
among the sources).  On success the node is removed and the totals decremented;
on not-found nothing changes. -/
def LRUStorage.do_del_value (st : LRUStorage) (key : Nat) :
    LRUStorage × cache_result_t :=
  match findEntry key st.entries with
  | some v =>
    ({ st with entries := removeEntry key st.entries,
               item_count := st.item_count - 1,
               total_size := st.total_size - v.size },
      cache_result_t.ok)
  | none => (st, cache_result_t.notFound)

/-- Modelled from the spec: `do_get_head`, section 4.2 — the most-recently-used
entry, without mutating the order (`lrustorage.cc` is not among the sources). -/
def LRUStorage.do_get_head (st : LRUStorage) :
    cache_result_t × Option (Nat × GWBUF) :=
  match st.entries.getLast? with
  | some e => (cache_result_t.ok, some e)
  | none => (cache_result_t.notFound, none)

/-- Modelled from the spec: `do_get_tail`, section 4.2 — the least-recently-used
entry, without mutating the order (`lrustorage.cc` is not among the sources). -/
def LRUStorage.do_get_tail (st : LRUStorage) :
    cache_result_t × Option (Nat × GWBUF) :=
  match st.entries.head? with
  | some e => (cache_result_t.ok, some e)
  | none => (cache_result_t.notFound, none)

/-- Modelled from the spec: `do_get_size` — the running byte total, O(1)
(`lrustorage.cc` is not among the sources). -/
def LRUStorage.do_get_size (st : LRUStorage) : cache_result_t × Nat :=
  (cache_result_t.ok, st.total_size)

/-- Modelled from the spec: `do_get_items` — the running item count, O(1)
(`lrustorage.cc` is not among the sources). -/
def LRUStorage.do_get_items (st : LRUStorage) : cache_result_t × Nat :=
  (cache_result_t.ok, st.item_count)

/-- Diagnostic snapshot assembled by `do_get_info` (spec section 6: at least
the limits and the running totals). -/
structure LRU_INFO where
  max_count : Nat
  max_size : Nat
  item_count : Nat
  total_size : Nat
  deriving DecidableEq

/-- Modelled from the spec: `do_get_info` — a diagnostic snapshot of limits and
totals, without mutating state (`lrustorage.cc` is not among the sources).
`what` selects backend-specific fields, which the model does not have. -/
def LRUStorage.do_get_info (st : LRUStorage) (what : Nat) :
    cache_result_t × LRU_INFO :=
  match what with
  | _ => (cache_result_t.ok, ⟨st.max_count, st.max_size, st.item_count, st.total_size⟩)

/-- Lock events observable during one public call of the multi-threaded wrapper:
the `SpinLockGuard` acquiring the spinlock on scope entry, the guarded core
operation, and the guard destructor releasing the lock on scope exit. -/
inductive LockEvent where
  | acquire
  | release
  | coreStep
  deriving DecidableEq

/-- `LRUStorageMT` (lrustoragemt.cc): the multi-threaded wrapper is the LRU core
plus a single per-instance spinlock `lock_` (initialised free by the
constructor). -/
structure LRUStorageMT where
  base : LRUStorage
  lock_ : Bool
  deriving DecidableEq

/-- `LRUStorageMT::create` (lrustoragemt.cc:31): the result pointer starts NULL,
`MXS_EXCEPTION_GUARD(plru_storage = new LRUStorageMT(...))` assigns it, and the
pointer is returned — so a constructor fault yields NULL and a fault-free `new`
yields the freshly constructed object.  `ctorOutcome` is the run of the
constructor: a raised fault (allocation failure) or normal completion. -/
def LRUStorageMT.create (ctorOutcome : Except Nat Unit) (max_count max_size : Nat) :
    Option LRUStorageMT :=
  match ctorOutcome with
  | Except.error _ => none
  | Except.ok _ => some ⟨LRUStorage.init max_count max_size, false⟩

/-- `LRUStorageMT::get_value` (lrustoragemt.cc:48): `SpinLockGuard guard(lock_);
return do_get_value(key, flags, ppvalue);`.  A call made while the lock is
already held never returns (the spinlock spins): modelled as `none`.  Otherwise
the new state, the core result and the observed lock-event trace are returned. -/
def LRUStorageMT.get_value (st : LRUStorageMT) (key flags : Nat) :
    Option (LRUStorageMT × (cache_result_t × Option GWBUF) × List LockEvent) :=
  if st.lock_ then none
  else
    let r := st.base.do_get_value key flags
    some (⟨r.1, false⟩, r.2, [LockEvent.acquire, LockEvent.coreStep, LockEvent.release])

/-- `LRUStorageMT::put_value` (lrustoragemt.cc:57): `SpinLockGuard guard(lock_);
return do_put_value(key, pvalue);`. -/
def LRUStorageMT.put_value (st : LRUStorageMT) (key : Nat) (value : GWBUF) :
    Option (LRUStorageMT × cache_result_t × List LockEvent) :=
  if st.lock_ then none
  else
    let r := st.base.do_put_value key value
    some (⟨r.1, false⟩, r.2, [LockEvent.acquire, LockEvent.coreStep, LockEvent.release])

/-- `LRUStorageMT::del_value` (lrustoragemt.cc:65): `SpinLockGuard guard(lock_);
return do_del_value(key);`. -/
def LRUStorageMT.del_value (st : LRUStorageMT) (key : Nat) :
    Option (LRUStorageMT × cache_result_t × List LockEvent) :=
  if st.lock_ then none
  else
    let r := st.base.do_del_value key
    some (⟨r.1, false⟩, r.2, [LockEvent.acquire, LockEvent.coreStep, LockEvent.release])

/-- `LRUStorageMT::get_head` (lrustoragemt.cc:72): `SpinLockGuard guard(lock_);
return LRUStorage::do_get_head(pKey, ppValue);`. -/
def LRUStorageMT.get_head (st : LRUStorageMT) :
    Option (LRUStorageMT × (cache_result_t × Option (Nat × GWBUF)) × List LockEvent) :=
  if st.lock_ then none
  else
    some (⟨st.base, false⟩, st.base.do_get_head,
      [LockEvent.acquire, LockEvent.coreStep, LockEvent.release])

/-- `LRUStorageMT::get_tail` (lrustoragemt.cc:80): `SpinLockGuard guard(lock_);
return LRUStorage::do_get_tail(pKey, ppValue);`. -/
def LRUStorageMT.get_tail (st : LRUStorageMT) :
    Option (LRUStorageMT × (cache_result_t × Option (Nat × GWBUF)) × List LockEvent) :=
  if st.lock_ then none
  else
    some (⟨st.base, false⟩, st.base.do_get_tail,
      [LockEvent.acquire, LockEvent.coreStep, LockEvent.release])

/-- `LRUStorageMT::get_size` (lrustoragemt.cc:88): `SpinLockGuard guard(lock_);
return LRUStorage::do_get_size(pSize);`. -/
def LRUStorageMT.get_size (st : LRUStorageMT) :
    Option (LRUStorageMT × (cache_result_t × Nat) × List LockEvent) :=
  if st.lock_ then none
  else
    some (⟨st.base, false⟩, st.base.do_get_size,
      [LockEvent.acquire, LockEvent.coreStep, LockEvent.release])

/-- `LRUStorageMT::get_items` (lrustoragemt.cc:95): `SpinLockGuard guard(lock_);
return LRUStorage::do_get_items(pItems);`. -/
def LRUStorageMT.get_items (st : LRUStorageMT) :
    Option (LRUStorageMT × (cache_result_t × Nat) × List LockEvent) :=
  if st.lock_ then none
  else
    some (⟨st.base, false⟩, st.base.do_get_items,
      [LockEvent.acquire, LockEvent.coreStep, LockEvent.release])

/-- `LRUStorageMT::get_info` (lrustoragemt.cc:40): `SpinLockGuard guard(lock_);
return LRUStorage::do_get_info(what, ppInfo);`. -/
def LRUStorageMT.get_info (st : LRUStorageMT) (what : Nat) :
    Option (LRUStorageMT × (cache_result_t × LRU_INFO) × List LockEvent) :=
  if st.lock_ then none
  else
    some (⟨st.base, false⟩, st.base.do_get_info what,
      [LockEvent.acquire, LockEvent.coreStep, LockEvent.release])

/-- `DOWNSTREAM` (declared in `maxscale/filter.h`, consumed at filter.hh:49): the
next chain component as a C struct of nullable pointers — filter instance,
session data, and the `routeQuery` entry-point function pointer taking
(instance, session, packet).  Fault codes of entry points are modelled inside
the returned `Int`, as in C. -/
structure DOWNSTREAM where
  instance_ : Option Nat
  session : Option Nat
  routeQuery : Option (Option Nat → Option Nat → GWBUF → Int)

/-- `UPSTREAM` (declared in `maxscale/filter.h`, consumed at filter.hh:84): the
previous chain component — instance, session, and the `clientReply` entry-point
function pointer. -/
structure UPSTREAM where
  instance_ : Option Nat
  session : Option Nat
  clientReply : Option (Option Nat → Option Nat → GWBUF → Int)

/-- `FilterSession::Downstream` (filter.hh:39): a thin wrapper owning one
`DOWNSTREAM m_data`. -/
structure Downstream where
  m_data : DOWNSTREAM

/-- `Downstream::Downstream()` (filter.hh:42): the default constructor nulls
`m_data.instance`, `m_data.session` and `m_data.routeQuery`. -/
def Downstream.mkDefault : Downstream := ⟨⟨none, none, none⟩⟩

/-- `Downstream::Downstream(const DOWNSTREAM&)` (filter.hh:49): copies the
given struct into `m_data`. -/
def Downstream.mkFrom (down : DOWNSTREAM) : Downstream := ⟨down⟩

/-- `FilterSession::Upstream` (filter.hh:69): a thin wrapper owning one
`UPSTREAM m_data`. -/
structure Upstream where
  m_data : UPSTREAM

/-- `Upstream::Upstream()` (filter.hh:77): the default constructor nulls
`m_data.instance`, `m_data.session` and `m_data.clientReply`. -/
def Upstream.mkDefault : Upstream := ⟨⟨none, none, none⟩⟩

/-- `Upstream::Upstream(const UPSTREAM&)` (filter.hh:84): copies the given
struct into `m_data`. -/
def Upstream.mkFrom (up : UPSTREAM) : Upstream := ⟨up⟩

/-- One observed invocation of a bound entry point: the instance, session and
packet arguments it was called with. -/
structure CallRecord where
  inst : Option Nat
  sess : Option Nat
  packet : GWBUF
  deriving DecidableEq

/-- `Downstream::routeQuery` (filter.hh:61):
`return m_data.routeQuery(m_data.instance, m_data.session, pPacket);`.
A call through a null function pointer is undefined, modelled as `none`;
otherwise the bound function's return value is returned together with the list
of invocations made of it (exactly one, with the stored instance and session). -/
def Downstream.routeQuery (d : Downstream) (pPacket : GWBUF) :
    Option (Int × List CallRecord) :=
  match d.m_data.routeQuery with
  | none => none
  | some f =>
    some (f d.m_data.instance_ d.m_data.session pPacket,
      [⟨d.m_data.instance_, d.m_data.session, pPacket⟩])

/-- `Upstream::clientReply` (filter.hh:96):
`return m_data.clientReply(m_data.instance, m_data.session, pPacket);`. -/
def Upstream.clientReply (u : Upstream) (pPacket : GWBUF) :
    Option (Int × List CallRecord) :=
  match u.m_data.clientReply with
  | none => none
  | some f =>
    some (f u.m_data.instance_ u.m_data.session pPacket,
      [⟨u.m_data.instance_, u.m_data.session, pPacket⟩])

/-- The behaviour of a concrete `FilterSessionType` as the `Filter` template's
static entry points see it: each per-call method may raise a runtime fault
(a C++ exception, `Except.error` with a `Nat` fault code) or complete with its
result.  Names, options and handles are opaque numbers. -/
structure FilterSessionType where
  close : Except Nat Unit
  dtor : Except Nat Unit
  setDownstream : Downstream → Except Nat Unit
  setUpstream : Upstream → Except Nat Unit
  routeQuery : GWBUF → Except Nat Int
  clientReply : GWBUF → Except Nat Int
  diagnostics : Nat → Except Nat Unit

/-- The behaviour of a concrete `FilterType` as the `Filter` template's static
entry points see it: `create` (name, options, parameters — opaque numbers) and
`newSession` return nullable pointers and may raise; `getCapabilities` returns
a capability bitmask and may raise; `dtor` is the destructor run by
`destroyInstance`. -/
structure FilterType where
  create : Nat → List Nat → List (Nat × Nat) → Except Nat (Option Nat)
  newSession : Nat → Except Nat (Option Nat)
  getCapabilities : Except Nat Nat
  dtor : Except Nat Unit

/-- `Filter::createInstance` (filter.hh:205): `FilterType* pFilter = NULL;
MXS_EXCEPTION_GUARD(pFilter = FilterType::create(...)); return pFilter;` —
the guard itself is not among the sources (`maxscale/cppdefs.hh`); modelled
from the spec, it catches the raised fault, leaving the NULL initialisation as
the returned value; a fault-free run returns whatever pointer `create`
returned. -/
def Filter.createInstance (F : FilterType) (zName : Nat) (pzOptions : List Nat)
    (ppParams : List (Nat × Nat)) : Option Nat :=
  match F.create zName pzOptions ppParams with
  | Except.error _ => none
  | Except.ok p => p

/-- `Filter::newSession` (filter.hh:214): the guarded
`pFilterSession = pFilter->newSession(pSession)`.  The source leaves the
pointer uninitialised when `newSession` raises; the model returns `none` for
that indeterminate value. -/
def Filter.newSession (F : FilterType) (pSession : Nat) : Option Nat :=
  match F.newSession pSession with
  | Except.error _ => none
  | Except.ok p => p

/-- `Filter::closeSession` (filter.hh:224): `MXS_EXCEPTION_GUARD(
pFilterSession->close());` — void, any fault swallowed. -/
def Filter.closeSession (S : FilterSessionType) : Unit :=
  match S.close with
  | Except.error _ => ()
  | Except.ok _ => ()

/-- `Filter::freeSession` (filter.hh:231): `MXS_EXCEPTION_GUARD(
delete pFilterSession);` — void, any fault swallowed. -/
def Filter.freeSession (S : FilterSessionType) : Unit :=
  match S.dtor with
  | Except.error _ => ()
  | Except.ok _ => ()

/-- `Filter::setDownstream` (filter.hh:238): wraps the C struct in a
`Downstream` and runs the guarded `pFilterSession->setDownstream(down)`. -/
def Filter.setDownstream (S : FilterSessionType) (pDownstream : DOWNSTREAM) : Unit :=
  match S.setDownstream (Downstream.mkFrom pDownstream) with
  | Except.error _ => ()
  | Except.ok _ => ()

/-- `Filter::setUpstream` (filter.hh:247): wraps the C struct in an `Upstream`
and runs the guarded `pFilterSession->setUpstream(up)`. -/
def Filter.setUpstream (S : FilterSessionType) (pUpstream : UPSTREAM) : Unit :=
  match S.setUpstream (Upstream.mkFrom pUpstream) with
  | Except.error _ => ()
  | Except.ok _ => ()

/-- `Filter::routeQuery` (filter.hh:256): `int rv = 0;
MXS_EXCEPTION_GUARD(rv = pFilterSession->routeQuery(pPacket)); return rv;` —
a raised fault leaves the fallback 0, a normal run returns the session's
value. -/
def Filter.routeQuery (S : FilterSessionType) (pPacket : GWBUF) : Int :=
  match S.routeQuery pPacket with
  | Except.error _ => 0
  | Except.ok v => v

/-- `Filter::clientReply` (filter.hh:266): `int rv = 0;
MXS_EXCEPTION_GUARD(rv = pFilterSession->clientReply(pPacket)); return rv;`. -/
def Filter.clientReply (S : FilterSessionType) (pPacket : GWBUF) : Int :=
  match S.clientReply pPacket with
  | Except.error _ => 0
  | Except.ok v => v

/-- `Filter::diagnostics` (filter.hh:276): the guarded
`pFilterSession->diagnostics(pDcb)` — void, any fault swallowed. -/
def Filter.diagnostics (S : FilterSessionType) (pDcb : Nat) : Unit :=
  match S.diagnostics pDcb with
  | Except.error _ => ()
  | Except.ok _ => ()

/-- `Filter::getCapabilities` (filter.hh:283): `uint64_t rv = 0;
MXS_EXCEPTION_GUARD(rv = FilterType::getCapabilities()); return rv;`. -/
def Filter.getCapabilities (F : FilterType) : Nat :=
  match F.getCapabilities with
  | Except.error _ => 0
  | Except.ok v => v

/-- `Filter::destroyInstance` (filter.hh:292): the guarded `delete pFilter` —
void, any fault swallowed. -/
def Filter.destroyInstance (F : FilterType) : Unit :=
  match F.dtor with
  | Except.error _ => ()
  | Except.ok _ => ()

/-- `FILTER_OBJECT`: the module dispatch table.  The struct itself is declared
in `maxscale/filter.h`, which is not among the sources; its field order is
modelled from the positional initializer at filter.hh:304 (a C++ aggregate
initializer fills the fields in declaration order).  The concrete filter and
filter-session behaviours appear as leading arguments of each entry, the
compile-time binding of the template instantiation. -/
structure FILTER_OBJECT where
  createInstance : FilterType → Nat → List Nat → List (Nat × Nat) → Option Nat
  newSession : FilterType → Nat → Option Nat
  closeSession : FilterSessionType → Unit
  freeSession : FilterSessionType → Unit
  setDownstream : FilterSessionType → DOWNSTREAM → Unit
  setUpstream : FilterSessionType → UPSTREAM → Unit
  routeQuery : FilterSessionType → GWBUF → Int
  clientReply : FilterSessionType → GWBUF → Int
  diagnostics : FilterSessionType → Nat → Unit
  getCapabilities : FilterType → Nat
  destroyInstance : FilterType → Unit

/-- `Filter::s_object` (filter.hh:304): the static dispatch table listing the
eleven static entry points positionally — createInstance, newSession,
closeSession, freeSession, setDownstream, setUpstream, routeQuery, clientReply,
diagnostics, getCapabilities, destroyInstance. -/
def Filter.s_object : FILTER_OBJECT :=
  ⟨Filter.createInstance, Filter.newSession, Filter.closeSession,
    Filter.freeSession, Filter.setDownstream, Filter.setUpstream,
    Filter.routeQuery, Filter.clientReply, Filter.diagnostics,
    Filter.getCapabilities, Filter.destroyInstance⟩

/-- `MAXROWS_OK_PACKET_LEN` (maxrows.h:21). -/
def MAXROWS_OK_PACKET_LEN : Nat := 11

/-- `MAXROWS_DEBUG_NONE` (maxrows.h:23). -/
def MAXROWS_DEBUG_NONE : Nat := 0

/-- `MAXROWS_DEBUG_MATCHING` (maxrows.h:24). -/
def MAXROWS_DEBUG_MATCHING : Nat := 1

/-- `MAXROWS_DEBUG_NON_MATCHING` (maxrows.h:25). -/
def MAXROWS_DEBUG_NON_MATCHING : Nat := 2

/-- `MAXROWS_DEBUG_USE` (maxrows.h:26). -/
def MAXROWS_DEBUG_USE : Nat := 4

/-- `MAXROWS_DEBUG_NON_USE` (maxrows.h:27). -/
def MAXROWS_DEBUG_NON_USE : Nat := 8

/-- `MAXROWS_DEBUG_RULES` (maxrows.h:29). -/
def MAXROWS_DEBUG_RULES : Nat := MAXROWS_DEBUG_MATCHING ||| MAXROWS_DEBUG_NON_MATCHING

/-- `MAXROWS_DEBUG_USAGE` (maxrows.h:30). -/
def MAXROWS_DEBUG_USAGE : Nat := MAXROWS_DEBUG_USE ||| MAXROWS_DEBUG_NON_USE

/-- `MAXROWS_DEBUG_MIN` (maxrows.h:31). -/
def MAXROWS_DEBUG_MIN : Nat := MAXROWS_DEBUG_NONE

/-- `MAXROWS_DEBUG_MAX` (maxrows.h:32). -/
def MAXROWS_DEBUG_MAX : Nat := MAXROWS_DEBUG_RULES ||| MAXROWS_DEBUG_USAGE

/-- The running totals agree with the recency list: the spec's bookkeeping
invariant between the key map, the node list and the incremental counters. -/
def Consistent (st : LRUStorage) : Prop :=
  st.item_count = st.entries.length ∧ st.total_size = entriesSize st.entries

/-- A fresh multi-threaded LRU storage (constructor at lrustoragemt.cc:19):
freshly initialised core, spinlock free. -/
def LRUStorageMT.mtInit (max_count max_size : Nat) : LRUStorageMT :=
  ⟨LRUStorage.init max_count max_size, false⟩

/-- A sequence of public `put_value` calls on one multi-threaded LRU storage
created with the given limits; each call that returns replaces the state. -/
def runPutsMT (maxC maxS : Nat) (ops : List (Nat × GWBUF)) : LRUStorageMT :=
  ops.foldl
    (fun st op =>
      match st.put_value op.1 op.2 with
      | some r => r.1
      | none => st)
    (LRUStorageMT.mtInit maxC maxS)

/-- The same sequence of puts on the single-threaded core. -/
def runPutsCore (ops : List (Nat × GWBUF)) (st : LRUStorage) : LRUStorage :=
  ops.foldl (fun s op => (s.do_put_value op.1 op.2).1) st

/-- A concrete store holding one 1-byte entry under `max_total_size = 3`,
built by a public put on a fresh multi-threaded instance. -/
def oversizedPre : LRUStorageMT := runPutsMT 0 3 [(1, ⟨[9]⟩)]

/-- The trace every guarded public call emits. -/
def guardTrace : List LockEvent :=
  [LockEvent.acquire, LockEvent.coreStep, LockEvent.release]

/-- A well-formed guarded-call trace: the lock is acquired first, released
last, exactly once each, with exactly one core operation in between — the lock
spans one call and is never held across calls. -/
def singleGuardedCall (tr : List LockEvent) : Prop :=
  tr.head? = some LockEvent.acquire ∧ tr.getLast? = some LockEvent.release ∧
  tr.count LockEvent.acquire = 1 ∧ tr.count LockEvent.release = 1 ∧
  tr.count LockEvent.coreStep = 1

/-- A public MT call returns, with a well-formed guarded trace, leaving the
lock free. -/
def guardedCallOk {α : Type} (res : Option (LRUStorageMT × α × List LockEvent)) :
    Prop :=
  ∃ r, res = some r ∧ singleGuardedCall r.2.2 ∧ r.1.lock_ = false

/-- A concrete bound entry point returning 7 on every invocation. -/
def entryReturn7 : Option Nat → Option Nat → GWBUF → Int := fun _ _ _ => 7

/-- A Downstream handle bound to instance 1, session 2 and `entryReturn7`. -/
def downstream7 : Downstream := ⟨⟨some 1, some 2, some entryReturn7⟩⟩

/-- An Upstream handle bound to instance 3, session 4 and `entryReturn7`. -/
def upstream7 : Upstream := ⟨⟨some 3, some 4, some entryReturn7⟩⟩

/-- A session whose per-call logic raises fault 5 on every packet. -/
def faultySession : FilterSessionType :=
  ⟨Except.ok (), Except.ok (), fun _ => Except.ok (), fun _ => Except.ok (),
    fun _ => Except.error 5, fun _ => Except.error 5, fun _ => Except.ok ()⟩

/-- A session whose per-call logic returns 7 on every packet. -/
def okSession : FilterSessionType :=
  ⟨Except.ok (), Except.ok (), fun _ => Except.ok (), fun _ => Except.ok (),
    fun _ => Except.ok 7, fun _ => Except.ok 7, fun _ => Except.ok ()⟩

/-- Whether an `Except` run completed without a raised fault. -/
def exceptIsOk {α : Type} : Except Nat α → Bool
  | Except.ok _ => true
  | Except.error _ => false

/-- A concrete filter whose `create` returns a null pointer without raising any
fault (as a real filter does on an invalid configuration). -/
def nullCreateFilter : FilterType :=
  ⟨fun _ _ _ => Except.ok none, fun _ => Except.ok none, Except.ok 0,
    Except.ok ()⟩

/-- A concrete filter all of whose hooks raise fault 9. -/
def faultyCreateFilter : FilterType :=
  ⟨fun _ _ _ => Except.error 9, fun _ => Except.error 9, Except.error 9,
    Except.error 9⟩

theorem entriesSize_nil : entriesSize [] = 0 := rfl

theorem entriesSize_cons (e : Nat × GWBUF) (l : List (Nat × GWBUF)) :
    entriesSize (e :: l) = e.2.size + entriesSize l := by
  simp [entriesSize]

theorem entriesSize_append (l₁ l₂ : List (Nat × GWBUF)) :
    entriesSize (l₁ ++ l₂) = entriesSize l₁ + entriesSize l₂ := by
  simp [entriesSize]

/-- Removing a found key drops exactly one node and exactly its size. -/
theorem removeEntry_spec (key : Nat) (v : GWBUF) :
    ∀ l : List (Nat × GWBUF), findEntry key l = some v →
      (removeEntry key l).length + 1 = l.length ∧
      entriesSize (removeEntry key l) + v.size = entriesSize l := by
  intro l
  induction l with
  | nil => intro h; simp [findEntry] at h
  | cons e rest ih =>
    intro h
    by_cases hk : e.1 = key
    · simp only [findEntry, if_pos hk, Option.some.injEq] at h
      subst h
      rw [removeEntry, if_pos hk, List.length_cons, entriesSize_cons]
      omega
    · simp only [findEntry, if_neg hk] at h
      obtain ⟨h1, h2⟩ := ih h
      rw [removeEntry, if_neg hk, List.length_cons, List.length_cons,
        entriesSize_cons, entriesSize_cons]
      omega

/-- The eviction loop keeps count and size consistent with the surviving list
and stops only once each nonzero limit is respected. -/
theorem evictLoop_spec (maxC maxS : Nat) :
    ∀ (l : List (Nat × GWBUF)) (cnt sz : Nat),
      cnt = l.length → sz = entriesSize l →
      (evictLoop maxC maxS l cnt sz).2.1 = (evictLoop maxC maxS l cnt sz).1.length ∧
      (evictLoop maxC maxS l cnt sz).2.2 = entriesSize (evictLoop maxC maxS l cnt sz).1 ∧
      (maxC ≠ 0 → (evictLoop maxC maxS l cnt sz).2.1 ≤ maxC) ∧
      (maxS ≠ 0 → (evictLoop maxC maxS l cnt sz).2.2 ≤ maxS) := by
  intro l
  induction l with
  | nil =>
    intro cnt sz hc hs
    subst hc
    subst hs
    simp [evictLoop, entriesSize]
  | cons e rest ih =>
    intro cnt sz hc hs
    rw [List.length_cons] at hc
    rw [entriesSize_cons] at hs
    by_cases hcond : (maxC ≠ 0 ∧ maxC < cnt) ∨ (maxS ≠ 0 ∧ maxS < sz)
    · simp only [evictLoop, if_pos hcond]
      exact ih (cnt - 1) (sz - e.2.size) (by omega) (by omega)
    · simp only [evictLoop, if_neg hcond, List.length_cons, entriesSize_cons]
      refine ⟨by omega, by omega, ?_, ?_⟩ <;> intro h <;> omega

/-- `do_put_value` preserves the bookkeeping invariant and the limits, and
leaves both nonzero ceilings respected — the per-operation eviction bound. -/
theorem do_put_value_spec (st : LRUStorage) (key : Nat) (v : GWBUF)
    (h : Consistent st) :
    Consistent (st.do_put_value key v).1 ∧
    (st.do_put_value key v).1.max_count = st.max_count ∧
    (st.do_put_value key v).1.max_size = st.max_size ∧
    (st.max_count ≠ 0 → (st.do_put_value key v).1.item_count ≤ st.max_count) ∧
    (st.max_size ≠ 0 → (st.do_put_value key v).1.total_size ≤ st.max_size) := by
  obtain ⟨hc, hs⟩ := h
  cases hfind : findEntry key st.entries with
  | some old =>
    obtain ⟨hl, hsz⟩ := removeEntry_spec key old st.entries hfind
    have hspec := evictLoop_spec st.max_count st.max_size
      (removeEntry key st.entries ++ [(key, v)]) st.item_count
      (st.total_size - old.size + v.size)
      (by simp [List.length_append]; omega)
      (by simp [entriesSize_append, entriesSize_cons, entriesSize_nil]; omega)
    simp only [LRUStorage.do_put_value, hfind, Consistent]
    exact ⟨⟨hspec.1, hspec.2.1⟩, trivial, trivial, hspec.2.2.1, hspec.2.2.2⟩
  | none =>
    have hspec := evictLoop_spec st.max_count st.max_size
      (st.entries ++ [(key, v)]) (st.item_count + 1) (st.total_size + v.size)
      (by simp [List.length_append]; omega)
      (by simp [entriesSize_append, entriesSize_cons, entriesSize_nil]; omega)
    simp only [LRUStorage.do_put_value, hfind, Consistent]
    exact ⟨⟨hspec.1, hspec.2.1⟩, trivial, trivial, hspec.2.2.1, hspec.2.2.2⟩

/-- Folding core puts preserves the invariant and the configured limits. -/
theorem runPutsCore_spec (ops : List (Nat × GWBUF)) :
    ∀ st : LRUStorage, Consistent st →
      Consistent (runPutsCore ops st) ∧
      (runPutsCore ops st).max_count = st.max_count ∧
      (runPutsCore ops st).max_size = st.max_size := by
  induction ops with
  | nil => intro st h; exact ⟨h, rfl, rfl⟩
  | cons op rest ih =>
    intro st h
    obtain ⟨h1, h2, h3, _, _⟩ := do_put_value_spec st op.1 op.2 h
    obtain ⟨g1, g2, g3⟩ := ih (st.do_put_value op.1 op.2).1 h1
    refine ⟨g1, ?_, ?_⟩ <;> simp only [runPutsCore, List.foldl_cons] at *
    · omega
    · omega

/-- The multi-threaded put sequence equals the single-threaded core sequence
with the lock free before and after every call. -/
theorem runPutsMT_eq_core (maxC maxS : Nat) (ops : List (Nat × GWBUF)) :
    runPutsMT maxC maxS ops =
      ⟨runPutsCore ops (LRUStorage.init maxC maxS), false⟩ := by
  have main : ∀ (l : List (Nat × GWBUF)) (st : LRUStorage),
      l.foldl
        (fun st op =>
          match st.put_value op.1 op.2 with
          | some r => r.1
          | none => st)
        (⟨st, false⟩ : LRUStorageMT) = ⟨runPutsCore l st, false⟩ := by
    intro l
    induction l with
    | nil => intro st; rfl
    | cons op rest ih =>
      intro st
      simp only [List.foldl_cons, runPutsCore, LRUStorageMT.put_value,
        Bool.false_eq_true, if_false]
      exact ih (st.do_put_value op.1 op.2).1
  exact main ops (LRUStorage.init maxC maxS)

/-- The freshly created storage satisfies the bookkeeping invariant. -/
theorem init_consistent (maxC maxS : Nat) : Consistent (LRUStorage.init maxC maxS) :=
  ⟨rfl, rfl⟩

/-- C1: for every sequence of `put_value` operations on an LRU storage created
with limits `max_item_count` and `max_total_size`, after each operation
completes, if `max_item_count > 0` then `item_count <= max_item_count`, and if
`max_total_size > 0` then `total_size <= max_total_size`.  (Quantifying over
all sequences covers the state after each prefix of a longer sequence.) -/
theorem lru_mt_put_eviction_bound (maxC maxS : Nat) (ops : List (Nat × GWBUF)) :
    (0 < maxC → (runPutsMT maxC maxS ops).base.item_count ≤ maxC) ∧
    (0 < maxS → (runPutsMT maxC maxS ops).base.total_size ≤ maxS) := by
  rw [runPutsMT_eq_core]
  rcases List.eq_nil_or_concat ops with rfl | ⟨L, op, rfl⟩
  · exact ⟨fun _ => Nat.zero_le maxC, fun _ => Nat.zero_le maxS⟩
  · have hpre := runPutsCore_spec L (LRUStorage.init maxC maxS)
      (init_consistent maxC maxS)
    have hstep := do_put_value_spec (runPutsCore L (LRUStorage.init maxC maxS))
      op.1 op.2 hpre.1
    have hfold : runPutsCore (L ++ [op]) (LRUStorage.init maxC maxS) =
        ((runPutsCore L (LRUStorage.init maxC maxS)).do_put_value op.1 op.2).1 := by
      simp only [runPutsCore, List.foldl_append, List.foldl_cons, List.foldl_nil]
    simp only [List.concat_eq_append]
    rw [hfold]
    have hmc : (runPutsCore L (LRUStorage.init maxC maxS)).max_count = maxC :=
      hpre.2.1
    have hms : (runPutsCore L (LRUStorage.init maxC maxS)).max_size = maxS :=
      hpre.2.2
    refine ⟨fun h => ?_, fun h => ?_⟩
    · have := hstep.2.2.2.1 (by omega)
      omega
    · have := hstep.2.2.2.2 (by omega)
      omega

/-- C1 witness: the bound evaluated after two concrete puts with
`max_item_count = 1`. -/
theorem lru_mt_put_eviction_bound_witness :
    (runPutsMT 1 0 [(1, ⟨[5, 5]⟩), (2, ⟨[7]⟩)]).base.item_count ≤ 1 :=
  (lru_mt_put_eviction_bound 1 0 [(1, ⟨[5, 5]⟩), (2, ⟨[7]⟩)]).1 (by decide)

/-- When the newest entry alone exceeds a nonzero byte limit, the eviction
loop empties the whole store. -/
theorem evictLoop_oversized (maxC maxS : Nat) (x : Nat × GWBUF)
    (hms : maxS ≠ 0) (hx : maxS < x.2.size) :
    ∀ (l : List (Nat × GWBUF)) (cnt sz : Nat),
      cnt = (l ++ [x]).length → sz = entriesSize (l ++ [x]) →
      evictLoop maxC maxS (l ++ [x]) cnt sz = ([], 0, 0) := by
  intro l
  induction l with
  | nil =>
    intro cnt sz hc hs
    simp only [List.nil_append, List.length_cons, List.length_nil] at hc hs ⊢
    rw [entriesSize_cons, entriesSize_nil] at hs
    rw [evictLoop, if_pos (Or.inr ⟨hms, by omega⟩)]
    rw [evictLoop]
    refine congrArg (Prod.mk []) ?_
    rw [Prod.mk.injEq]
    omega
  | cons e rest ih =>
    intro cnt sz hc hs
    have hsz : entriesSize ((e :: rest) ++ [x]) =
        e.2.size + (entriesSize rest + x.2.size) := by
      rw [List.cons_append, entriesSize_cons, entriesSize_append,
        entriesSize_cons, entriesSize_nil]
      omega
    have hlen : ((e :: rest) ++ [x]).length = (rest ++ [x]).length + 1 := by
      simp
    rw [List.cons_append, evictLoop, if_pos (Or.inr ⟨hms, by omega⟩)]
    apply ih
    · omega
    · rw [entriesSize_append, entriesSize_cons, entriesSize_nil]
      omega

/-- An oversized put on a consistent core: accepted, then everything evicted. -/
theorem do_put_value_oversized (st : LRUStorage) (key : Nat) (v : GWBUF)
    (hcons : Consistent st) (hms : st.max_size ≠ 0) (hv : st.max_size < v.size) :
    (st.do_put_value key v).1.entries = [] ∧
    (st.do_put_value key v).1.item_count = 0 ∧
    (st.do_put_value key v).1.total_size = 0 ∧
    (st.do_put_value key v).2 = cache_result_t.ok := by
  obtain ⟨hc, hs⟩ := hcons
  cases hfind : findEntry key st.entries with
  | some old =>
    obtain ⟨hl, hsz⟩ := removeEntry_spec key old st.entries hfind
    have hloop := evictLoop_oversized st.max_count st.max_size (key, v) hms hv
      (removeEntry key st.entries) st.item_count (st.total_size - old.size + v.size)
      (by simp [List.length_append]; omega)
      (by simp [entriesSize_append, entriesSize_cons, entriesSize_nil]; omega)
    simp [LRUStorage.do_put_value, hfind, hloop]
  | none =>
    have hloop := evictLoop_oversized st.max_count st.max_size (key, v) hms hv
      st.entries (st.item_count + 1) (st.total_size + v.size)
      (by simp [List.length_append]; omega)
      (by simp [entriesSize_append, entriesSize_cons, entriesSize_nil]; omega)
    simp [LRUStorage.do_put_value, hfind, hloop]

/-- C8 amended: with a nonzero `max_total_size` and a value whose size alone
exceeds it, `put_value` is accepted (returns ok, not a rejection), a
`get_value` of the same key immediately afterwards returns NotFound, and
`total_size` is 0 — the eviction loop empties the store entirely, so the total
returns to 0 rather than to its pre-put value. -/
theorem lru_mt_oversized_put (st : LRUStorageMT) (key flags : Nat) (v : GWBUF)
    (hlock : st.lock_ = false) (hcons : Consistent st.base)
    (hms : st.base.max_size ≠ 0) (hv : st.base.max_size < v.size) :
    (st.put_value key v).map (fun r => r.2.1) = some cache_result_t.ok ∧
    ((st.put_value key v).bind (fun r => r.1.get_value key flags)).map
        (fun r => r.2.1.1) = some cache_result_t.notFound ∧
    (st.put_value key v).map (fun r => r.1.base.total_size) = some 0 := by
  obtain ⟨h1, h2, h3, h4⟩ := do_put_value_oversized st.base key v hcons hms hv
  have hput : st.put_value key v =
      some (⟨(st.base.do_put_value key v).1, false⟩,
        (st.base.do_put_value key v).2,
        [LockEvent.acquire, LockEvent.coreStep, LockEvent.release]) := by
    simp [LRUStorageMT.put_value, hlock]
  have hget : (st.base.do_put_value key v).1.do_get_value key flags =
      ((st.base.do_put_value key v).1, cache_result_t.notFound, none) := by
    rw [LRUStorage.do_get_value.eq_def]
    rw [h1]
    rfl
  rw [hput]
  refine ⟨by simp [h4], ?_, by simp [h3]⟩
  simp [LRUStorageMT.get_value, hget]

/-- C8 amended witness: the oversized put evaluated on an empty store with
`max_total_size = 3` and a 5-byte value. -/
theorem lru_mt_oversized_put_witness :
    ((LRUStorageMT.mtInit 0 3).put_value 7 ⟨[1, 2, 3, 4, 5]⟩).map
        (fun r => r.2.1) = some cache_result_t.ok ∧
    (((LRUStorageMT.mtInit 0 3).put_value 7 ⟨[1, 2, 3, 4, 5]⟩).bind
        (fun r => r.1.get_value 7 0)).map
        (fun r => r.2.1.1) = some cache_result_t.notFound ∧
    ((LRUStorageMT.mtInit 0 3).put_value 7 ⟨[1, 2, 3, 4, 5]⟩).map
        (fun r => r.1.base.total_size) = some 0 :=
  lru_mt_oversized_put (LRUStorageMT.mtInit 0 3) 7 0 ⟨[1, 2, 3, 4, 5]⟩
    rfl ⟨rfl, rfl⟩ (by decide) (by decide)

/-- C8 counterexample: after an oversized 5-byte put on a store whose byte
total was 1, the byte total is 0, not its value from before the put — the
eviction loop removes every entry, not only enough to readmit the new one. -/
theorem lru_mt_oversized_counterexample :
    (oversizedPre.put_value 2 ⟨[1, 2, 3, 4, 5]⟩).map
        (fun r => r.1.base.total_size) ≠ some oversizedPre.base.total_size := by
  decide

/-- Unfolding of every public MT operation called with the lock free: each one
is the corresponding core operation bracketed by the spinlock guard. -/
theorem mt_ops_unfold (st : LRUStorageMT) (key flags vkey dkey what : Nat)
    (v : GWBUF) (h : st.lock_ = false) :
    st.get_value key flags =
      some (⟨(st.base.do_get_value key flags).1, false⟩,
        (st.base.do_get_value key flags).2, guardTrace) ∧
    st.put_value vkey v =
      some (⟨(st.base.do_put_value vkey v).1, false⟩,
        (st.base.do_put_value vkey v).2, guardTrace) ∧
    st.del_value dkey =
      some (⟨(st.base.do_del_value dkey).1, false⟩,
        (st.base.do_del_value dkey).2, guardTrace) ∧
    st.get_head = some (⟨st.base, false⟩, st.base.do_get_head, guardTrace) ∧
    st.get_tail = some (⟨st.base, false⟩, st.base.do_get_tail, guardTrace) ∧
    st.get_size = some (⟨st.base, false⟩, st.base.do_get_size, guardTrace) ∧
    st.get_items = some (⟨st.base, false⟩, st.base.do_get_items, guardTrace) ∧
    st.get_info what =
      some (⟨st.base, false⟩, st.base.do_get_info what, guardTrace) := by
  refine ⟨?_, ?_, ?_, ?_, ?_, ?_, ?_, ?_⟩ <;>
    simp [LRUStorageMT.get_value, LRUStorageMT.put_value, LRUStorageMT.del_value,
      LRUStorageMT.get_head, LRUStorageMT.get_tail, LRUStorageMT.get_size,
      LRUStorageMT.get_items, LRUStorageMT.get_info, guardTrace, h]

/-- C2: every public operation of the multi-threaded LRU storage — get_value,
put_value, del_value, get_head, get_tail, get_size, get_items, get_info —
called with the instance's single mutual-exclusion lock free, acquires the lock
on entry, performs exactly one core operation under it, and releases it when
the call returns, so each call is atomic and no lock is held across more than
one call. -/
theorem lru_mt_lock_discipline (st : LRUStorageMT) (key flags vkey dkey what : Nat)
    (v : GWBUF) (h : st.lock_ = false) :
    guardedCallOk (st.get_value key flags) ∧
    guardedCallOk (st.put_value vkey v) ∧
    guardedCallOk (st.del_value dkey) ∧
    guardedCallOk st.get_head ∧
    guardedCallOk st.get_tail ∧
    guardedCallOk st.get_size ∧
    guardedCallOk st.get_items ∧
    guardedCallOk (st.get_info what) := by
  have hstd : singleGuardedCall guardTrace := ⟨rfl, rfl, rfl, rfl, rfl⟩
  obtain ⟨e1, e2, e3, e4, e5, e6, e7, e8⟩ :=
    mt_ops_unfold st key flags vkey dkey what v h
  exact ⟨⟨_, e1, hstd, rfl⟩, ⟨_, e2, hstd, rfl⟩, ⟨_, e3, hstd, rfl⟩,
    ⟨_, e4, hstd, rfl⟩, ⟨_, e5, hstd, rfl⟩, ⟨_, e6, hstd, rfl⟩,
    ⟨_, e7, hstd, rfl⟩, ⟨_, e8, hstd, rfl⟩⟩

/-- C2 witness: the lock discipline evaluated on a fresh unlocked instance. -/
theorem lru_mt_lock_discipline_witness :
    guardedCallOk ((LRUStorageMT.mtInit 2 10).get_value 1 0) ∧
    guardedCallOk ((LRUStorageMT.mtInit 2 10).put_value 1 ⟨[4]⟩) ∧
    guardedCallOk ((LRUStorageMT.mtInit 2 10).del_value 1) ∧
    guardedCallOk (LRUStorageMT.mtInit 2 10).get_head ∧
    guardedCallOk (LRUStorageMT.mtInit 2 10).get_tail ∧
    guardedCallOk (LRUStorageMT.mtInit 2 10).get_size ∧
    guardedCallOk (LRUStorageMT.mtInit 2 10).get_items ∧
    guardedCallOk ((LRUStorageMT.mtInit 2 10).get_info 0) :=
  lru_mt_lock_discipline (LRUStorageMT.mtInit 2 10) 1 0 1 1 0 ⟨[4]⟩ rfl

/-- C3: with the lock free, each public operation of the multi-threaded
wrapper returns exactly the result and performs exactly the state change of
the corresponding core operation: get_value equals do_get_value, put_value
equals do_put_value, del_value equals do_del_value, get_head equals
do_get_head, get_tail equals do_get_tail, get_size equals do_get_size,
get_items equals do_get_items, get_info equals do_get_info. -/
theorem lru_mt_refines_core (st : LRUStorageMT) (key flags vkey dkey what : Nat)
    (v : GWBUF) (h : st.lock_ = false) :
    st.get_value key flags =
      some (⟨(st.base.do_get_value key flags).1, false⟩,
        (st.base.do_get_value key flags).2, guardTrace) ∧
    st.put_value vkey v =
      some (⟨(st.base.do_put_value vkey v).1, false⟩,
        (st.base.do_put_value vkey v).2, guardTrace) ∧
    st.del_value dkey =
      some (⟨(st.base.do_del_value dkey).1, false⟩,
        (st.base.do_del_value dkey).2, guardTrace) ∧
    st.get_head = some (⟨st.base, false⟩, st.base.do_get_head, guardTrace) ∧
    st.get_tail = some (⟨st.base, false⟩, st.base.do_get_tail, guardTrace) ∧
    st.get_size = some (⟨st.base, false⟩, st.base.do_get_size, guardTrace) ∧
    st.get_items = some (⟨st.base, false⟩, st.base.do_get_items, guardTrace) ∧
    st.get_info what =
      some (⟨st.base, false⟩, st.base.do_get_info what, guardTrace) :=
  mt_ops_unfold st key flags vkey dkey what v h

/-- C3 witness: the refinement equations evaluated on a concrete unlocked
instance holding one entry. -/
theorem lru_mt_refines_core_witness :
    (runPutsMT 2 10 [(1, ⟨[4]⟩)]).get_value 1 0 =
      some (⟨((runPutsMT 2 10 [(1, ⟨[4]⟩)]).base.do_get_value 1 0).1, false⟩,
        ((runPutsMT 2 10 [(1, ⟨[4]⟩)]).base.do_get_value 1 0).2, guardTrace) ∧
    (runPutsMT 2 10 [(1, ⟨[4]⟩)]).put_value 2 ⟨[6]⟩ =
      some (⟨((runPutsMT 2 10 [(1, ⟨[4]⟩)]).base.do_put_value 2 ⟨[6]⟩).1, false⟩,
        ((runPutsMT 2 10 [(1, ⟨[4]⟩)]).base.do_put_value 2 ⟨[6]⟩).2, guardTrace) ∧
    (runPutsMT 2 10 [(1, ⟨[4]⟩)]).del_value 1 =
      some (⟨((runPutsMT 2 10 [(1, ⟨[4]⟩)]).base.do_del_value 1).1, false⟩,
        ((runPutsMT 2 10 [(1, ⟨[4]⟩)]).base.do_del_value 1).2, guardTrace) ∧
    (runPutsMT 2 10 [(1, ⟨[4]⟩)]).get_head =
      some (⟨(runPutsMT 2 10 [(1, ⟨[4]⟩)]).base, false⟩,
        (runPutsMT 2 10 [(1, ⟨[4]⟩)]).base.do_get_head, guardTrace) ∧
    (runPutsMT 2 10 [(1, ⟨[4]⟩)]).get_tail =
      some (⟨(runPutsMT 2 10 [(1, ⟨[4]⟩)]).base, false⟩,
        (runPutsMT 2 10 [(1, ⟨[4]⟩)]).base.do_get_tail, guardTrace) ∧
    (runPutsMT 2 10 [(1, ⟨[4]⟩)]).get_size =
      some (⟨(runPutsMT 2 10 [(1, ⟨[4]⟩)]).base, false⟩,
        (runPutsMT 2 10 [(1, ⟨[4]⟩)]).base.do_get_size, guardTrace) ∧
    (runPutsMT 2 10 [(1, ⟨[4]⟩)]).get_items =
      some (⟨(runPutsMT 2 10 [(1, ⟨[4]⟩)]).base, false⟩,
        (runPutsMT 2 10 [(1, ⟨[4]⟩)]).base.do_get_items, guardTrace) ∧
    (runPutsMT 2 10 [(1, ⟨[4]⟩)]).get_info 3 =
      some (⟨(runPutsMT 2 10 [(1, ⟨[4]⟩)]).base, false⟩,
        (runPutsMT 2 10 [(1, ⟨[4]⟩)]).base.do_get_info 3, guardTrace) :=
  lru_mt_refines_core (runPutsMT 2 10 [(1, ⟨[4]⟩)]) 1 0 2 1 3 ⟨[6]⟩ (by decide)

/-- C4: for every Downstream handle whose entry point is bound and every
packet, `Downstream::routeQuery` invokes the bound function exactly once,
passing the stored instance, the stored session and the packet, and returns
exactly that function's return value; symmetrically `Upstream::clientReply`
invokes the bound `clientReply` exactly once with the stored instance, session
and packet and returns its value. -/
theorem handle_forwards_exactly_once (d : Downstream) (u : Upstream)
    (p q : GWBUF) (f g : Option Nat → Option Nat → GWBUF → Int)
    (hd : d.m_data.routeQuery = some f) (hu : u.m_data.clientReply = some g) :
    d.routeQuery p =
      some (f d.m_data.instance_ d.m_data.session p,
        [⟨d.m_data.instance_, d.m_data.session, p⟩]) ∧
    u.clientReply q =
      some (g u.m_data.instance_ u.m_data.session q,
        [⟨u.m_data.instance_, u.m_data.session, q⟩]) := by
  constructor
  · simp [Downstream.routeQuery, hd]
  · simp [Upstream.clientReply, hu]

/-- C4 witness: forwarding evaluated on concrete bound handles. -/
theorem handle_forwards_exactly_once_witness :
    downstream7.routeQuery ⟨[9]⟩ =
      some (entryReturn7 downstream7.m_data.instance_
          downstream7.m_data.session ⟨[9]⟩,
        [⟨downstream7.m_data.instance_, downstream7.m_data.session, ⟨[9]⟩⟩]) ∧
    upstream7.clientReply ⟨[8]⟩ =
      some (entryReturn7 upstream7.m_data.instance_
          upstream7.m_data.session ⟨[8]⟩,
        [⟨upstream7.m_data.instance_, upstream7.m_data.session, ⟨[8]⟩⟩]) :=
  handle_forwards_exactly_once downstream7 upstream7 ⟨[9]⟩ ⟨[8]⟩
    entryReturn7 entryReturn7 rfl rfl

/-- C5: if the concrete filter session's routeQuery (resp. clientReply) raises
a runtime fault, the chain-scaffold entry point `Filter::routeQuery` (resp.
`Filter::clientReply`) catches it and returns the single fallback result 0;
when no fault is raised it returns the session method's value unchanged. -/
theorem filter_exception_guard (S : FilterSessionType) (p q : GWBUF) :
    (∀ e, S.routeQuery p = Except.error e → Filter.routeQuery S p = 0) ∧
    (∀ v, S.routeQuery p = Except.ok v → Filter.routeQuery S p = v) ∧
    (∀ e, S.clientReply q = Except.error e → Filter.clientReply S q = 0) ∧
    (∀ v, S.clientReply q = Except.ok v → Filter.clientReply S q = v) := by
  refine ⟨?_, ?_, ?_, ?_⟩ <;> intro x hx <;>
    simp [Filter.routeQuery, Filter.clientReply, hx]

/-- C5 witness: the guard evaluated on a faulting and on a normal session. -/
theorem filter_exception_guard_witness :
    Filter.routeQuery faultySession ⟨[1]⟩ = 0 ∧
    Filter.routeQuery okSession ⟨[1]⟩ = 7 ∧
    Filter.clientReply faultySession ⟨[2]⟩ = 0 ∧
    Filter.clientReply okSession ⟨[2]⟩ = 7 :=
  ⟨(filter_exception_guard faultySession ⟨[1]⟩ ⟨[2]⟩).1 5 rfl,
    (filter_exception_guard okSession ⟨[1]⟩ ⟨[2]⟩).2.1 7 rfl,
    (filter_exception_guard faultySession ⟨[1]⟩ ⟨[2]⟩).2.2.1 5 rfl,
    (filter_exception_guard okSession ⟨[1]⟩ ⟨[2]⟩).2.2.2 7 rfl⟩

/-- C6: a default-constructed Downstream (resp. Upstream) handle has instance,
session and entry-point fields all null, and invoking it reaches no bound
function (the call is undefined, `none`); under the precondition that the
entry-point function is non-null the invocation returns a value and never
calls through a null function pointer. -/
theorem default_handle_null (d : Downstream) (u : Upstream) (p q : GWBUF)
    (hd : d.m_data.routeQuery.isSome = true)
    (hu : u.m_data.clientReply.isSome = true) :
    Downstream.mkDefault.m_data.instance_ = none ∧
    Downstream.mkDefault.m_data.session = none ∧
    Downstream.mkDefault.m_data.routeQuery = none ∧
    Upstream.mkDefault.m_data.instance_ = none ∧
    Upstream.mkDefault.m_data.session = none ∧
    Upstream.mkDefault.m_data.clientReply = none ∧
    Downstream.mkDefault.routeQuery p = none ∧
    Upstream.mkDefault.clientReply q = none ∧
    (d.routeQuery p).isSome = true ∧
    (u.clientReply q).isSome = true := by
  refine ⟨rfl, rfl, rfl, rfl, rfl, rfl, rfl, rfl, ?_, ?_⟩
  · unfold Downstream.routeQuery
    cases hcase : d.m_data.routeQuery with
    | none => rw [hcase] at hd; simp at hd
    | some f => rfl
  · unfold Upstream.clientReply
    cases hcase : u.m_data.clientReply with
    | none => rw [hcase] at hu; simp at hu
    | some f => rfl

/-- C6 witness: evaluated on the concrete bound handles. -/
theorem default_handle_null_witness :
    Downstream.mkDefault.m_data.instance_ = none ∧
    Downstream.mkDefault.m_data.session = none ∧
    Downstream.mkDefault.m_data.routeQuery = none ∧
    Upstream.mkDefault.m_data.instance_ = none ∧
    Upstream.mkDefault.m_data.session = none ∧
    Upstream.mkDefault.m_data.clientReply = none ∧
    Downstream.mkDefault.routeQuery ⟨[1]⟩ = none ∧
    Upstream.mkDefault.clientReply ⟨[2]⟩ = none ∧
    (downstream7.routeQuery ⟨[1]⟩).isSome = true ∧
    (upstream7.clientReply ⟨[2]⟩).isSome = true :=
  default_handle_null downstream7 upstream7 ⟨[1]⟩ ⟨[2]⟩ rfl rfl

/-- C7: the static dispatch table `Filter::s_object` has eleven entries which
are, in order, the Filter template's static entry points createInstance,
newSession, closeSession, freeSession, setDownstream, setUpstream, routeQuery,
clientReply, diagnostics, getCapabilities and destroyInstance, the concrete
filter and filter-session behaviours being arguments bound per instantiation. -/
theorem s_object_dispatch_table :
    Filter.s_object.createInstance = Filter.createInstance ∧
    Filter.s_object.newSession = Filter.newSession ∧
    Filter.s_object.closeSession = Filter.closeSession ∧
    Filter.s_object.freeSession = Filter.freeSession ∧
    Filter.s_object.setDownstream = Filter.setDownstream ∧
    Filter.s_object.setUpstream = Filter.setUpstream ∧
    Filter.s_object.routeQuery = Filter.routeQuery ∧
    Filter.s_object.clientReply = Filter.clientReply ∧
    Filter.s_object.diagnostics = Filter.diagnostics ∧
    Filter.s_object.getCapabilities = Filter.getCapabilities ∧
    Filter.s_object.destroyInstance = Filter.destroyInstance :=
  ⟨rfl, rfl, rfl, rfl, rfl, rfl, rfl, rfl, rfl, rfl, rfl⟩

/-- C9 counterexample: a fault-free run of `create` that returns NULL makes
`Filter::createInstance` return NULL even though no fault was raised — the
claim's "on a fault-free run it returns a non-null pointer" fails at this
concrete input. -/
theorem createInstance_fault_free_null_counterexample :
    exceptIsOk (nullCreateFilter.create 1 [] []) = true ∧
    Filter.createInstance nullCreateFilter 1 [] [] = none :=
  ⟨rfl, rfl⟩

/-- C9 amended: a raised fault in the concrete create function (resp. the
LRUStorageMT constructor) is caught and NULL is returned; a fault-free run of
`Filter::createInstance` returns exactly the pointer the create function
returned (non-null whenever create yields a newly created object), and a
fault-free run of `LRUStorageMT::create` returns a non-null pointer to the
newly created object. -/
theorem createInstance_guard (F : FilterType) (zName : Nat) (opts : List Nat)
    (params : List (Nat × Nat)) (ctorOutcome : Except Nat Unit) (mc ms : Nat) :
    (∀ e, F.create zName opts params = Except.error e →
      Filter.createInstance F zName opts params = none) ∧
    (∀ p, F.create zName opts params = Except.ok p →
      Filter.createInstance F zName opts params = p) ∧
    (∀ e, ctorOutcome = Except.error e →
      LRUStorageMT.create ctorOutcome mc ms = none) ∧
    (ctorOutcome = Except.ok () →
      (LRUStorageMT.create ctorOutcome mc ms).isSome = true) := by
  refine ⟨?_, ?_, ?_, ?_⟩
  · intro e he; simp [Filter.createInstance, he]
  · intro p hp; simp [Filter.createInstance, hp]
  · intro e he; simp [LRUStorageMT.create, he]
  · intro hok; simp [LRUStorageMT.create, hok]

/-- C9 amended witness: the guard evaluated on a faulting create, a null-
returning create, a faulting constructor and a fault-free constructor. -/
theorem createInstance_guard_witness :
    Filter.createInstance faultyCreateFilter 1 [] [] = none ∧
    Filter.createInstance nullCreateFilter 1 [] [] = none ∧
    LRUStorageMT.create (Except.error 9) 2 3 = none ∧
    (LRUStorageMT.create (Except.ok ()) 2 3).isSome = true :=
  ⟨(createInstance_guard faultyCreateFilter 1 [] [] (Except.error 9) 2 3).1
      9 rfl,
    (createInstance_guard nullCreateFilter 1 [] [] (Except.ok ()) 2 3).2.1
      none rfl,
    (createInstance_guard faultyCreateFilter 1 [] [] (Except.error 9) 2 3).2.2.1
      9 rfl,
    (createInstance_guard nullCreateFilter 1 [] [] (Except.ok ()) 2 3).2.2.2
      rfl⟩

/-- C10: the four maxrows debug flags are pairwise-distinct single-bit values,
the rules and usage masks are disjoint, the minimum is 0, the maximum is 15,
and every bitwise-OR combination of the flags lies between the minimum and the
maximum inclusive. -/
theorem maxrows_debug_flag_arithmetic :
    MAXROWS_DEBUG_MATCHING = 2 ^ 0 ∧
    MAXROWS_DEBUG_NON_MATCHING = 2 ^ 1 ∧
    MAXROWS_DEBUG_USE = 2 ^ 2 ∧
    MAXROWS_DEBUG_NON_USE = 2 ^ 3 ∧
    MAXROWS_DEBUG_MATCHING ≠ MAXROWS_DEBUG_NON_MATCHING ∧
    MAXROWS_DEBUG_MATCHING ≠ MAXROWS_DEBUG_USE ∧
    MAXROWS_DEBUG_MATCHING ≠ MAXROWS_DEBUG_NON_USE ∧
    MAXROWS_DEBUG_NON_MATCHING ≠ MAXROWS_DEBUG_USE ∧
    MAXROWS_DEBUG_NON_MATCHING ≠ MAXROWS_DEBUG_NON_USE ∧
    MAXROWS_DEBUG_USE ≠ MAXROWS_DEBUG_NON_USE ∧
    MAXROWS_DEBUG_RULES &&& MAXROWS_DEBUG_USAGE = 0 ∧
    MAXROWS_DEBUG_MIN = 0 ∧
    MAXROWS_DEBUG_MAX = 15 ∧
    (([MAXROWS_DEBUG_MATCHING, MAXROWS_DEBUG_NON_MATCHING, MAXROWS_DEBUG_USE,
        MAXROWS_DEBUG_NON_USE].sublists.map
        (fun l => l.foldl (fun a b => a ||| b) MAXROWS_DEBUG_NONE)).all
      (fun x => decide (MAXROWS_DEBUG_MIN ≤ x ∧ x ≤ MAXROWS_DEBUG_MAX))
      = true) := by
  decide
